import Mathlib

/-!
Verification of the log management platform's core logic
(`fastapi-backend`): index routing, boolean query building, result
normalization, error wrapping, and cluster-health summarization.

Each definition is a shallow embedding of the corresponding Python code:
the Elasticsearch client is passed in explicitly as a function so that
backend outcomes (successful responses, raised exceptions) become
explicit inputs; Python exceptions become `Except` errors carrying the
message and, when raised inside an `except` block, the original
exception (Python's implicit exception chaining via `__context__`).
-/

/-- Zero-pad a natural number to two digits, as Python `strftime`
    does for `%m`, `%d`, `%H`, `%M`, `%S`. -/
def pad2 (n : Nat) : String :=
  if n < 10 then "0" ++ toString n else toString n

/-- Zero-pad a natural number to four digits, as `strftime` does for `%Y`. -/
def pad4 (n : Nat) : String :=
  if n < 10 then "000" ++ toString n
  else if n < 100 then "00" ++ toString n
  else if n < 1000 then "0" ++ toString n
  else toString n

/-- A calendar date (the router's notion of "now"). -/
structure Date where
  year : Nat
  month : Nat
  day : Nat
deriving DecidableEq, Repr

/-- `datetime.strftime("%Y.%m.%d")` from
    `ElasticsearchService._get_index_name`. -/
def Date.strftimeDots (d : Date) : String :=
  pad4 d.year ++ "." ++ pad2 d.month ++ "." ++ pad2 d.day

/-- A wall-clock instant (Python `datetime`), to second precision. -/
structure DateTime where
  year : Nat
  month : Nat
  day : Nat
  hour : Nat
  minute : Nat
  second : Nat
deriving DecidableEq, Repr

/-- Python `datetime.isoformat()` (`YYYY-MM-DDTHH:MM:SS`). -/
def DateTime.isoformat (t : DateTime) : String :=
  pad4 t.year ++ "-" ++ pad2 t.month ++ "-" ++ pad2 t.day ++ "T" ++
    pad2 t.hour ++ ":" ++ pad2 t.minute ++ ":" ++ pad2 t.second

/-- `models.log_model.LogLevel` (closed string enumeration). -/
inductive LogLevel where
  | DEBUG
  | INFO
  | WARNING
  | ERROR
  | CRITICAL
deriving DecidableEq, Repr

/-- The `.value` of a `LogLevel` member. All values are non-empty, so
    every member is truthy in Python. -/
def LogLevel.value : LogLevel → String
  | .DEBUG => "DEBUG"
  | .INFO => "INFO"
  | .WARNING => "WARNING"
  | .ERROR => "ERROR"
  | .CRITICAL => "CRITICAL"

/-- `models.log_model.LogType` (the record's semantic category). -/
inductive LogType where
  | WEB_SERVER
  | DATABASE
  | APPLICATION
  | SECURITY
deriving DecidableEq, Repr

/-- The `.value` of a `LogType` member. All values are non-empty, so
    every member is truthy in Python. -/
def LogType.value : LogType → String
  | .WEB_SERVER => "web_server"
  | .DATABASE => "database"
  | .APPLICATION => "application"
  | .SECURITY => "security"

/-- Opaque key-to-value metadata mapping, stored as-is. -/
abbrev Metadata := List (String × String)

/-- An opaque returned document (`hit["_source"]`). -/
abbrev Doc := List (String × String)

/-- `models.log_model.LogEntry`. -/
structure LogEntry where
  timestamp : DateTime
  level : LogLevel
  log_type : LogType
  message : String
  source : String
  metadata : Option Metadata
deriving DecidableEq, Repr

/-- The serialized form of a `LogEntry` (its `.dict()`), the document
    submitted to the backend. -/
structure LogDoc where
  timestamp : DateTime
  level : String
  log_type : String
  message : String
  source : String
  metadata : Option Metadata
deriving DecidableEq, Repr

/-- `log_entry.dict()` from `ElasticsearchService.index_log`. -/
def LogEntry.dict (e : LogEntry) : LogDoc :=
  { timestamp := e.timestamp
    level := e.level.value
    log_type := e.log_type.value
    message := e.message
    source := e.source
    metadata := e.metadata }

/-- `models.log_model.LogQuery`. Pydantic enforces `1 ≤ size ≤ 1000`
    and `0 ≤ from_` at the boundary; those bounds appear as hypotheses
    where a claim needs them. -/
structure LogQuery where
  log_type : Option LogType
  level : Option LogLevel
  source : Option String
  start_time : Option DateTime
  end_time : Option DateTime
  query_string : Option String
  size : Nat
  from_ : Nat
deriving DecidableEq, Repr

/-- One clause of the boolean query built by
    `ElasticsearchService.search_logs`:
    `term` is `{"term": {field: value}}` (exact match),
    `range` is `{"range": {field: {"gte": …, "lte": …}}}` with the
    optional inclusive bounds that were supplied,
    `queryString` is `{"query_string": {"query": …, "default_field": …}}`,
    `matchAll` is `{"match_all": {}}`. -/
inductive Clause where
  | term (field value : String)
  | range (field : String) (gte lte : Option String)
  | queryString (query default_field : String)
  | matchAll
deriving DecidableEq, Repr

/-- `if query.log_type: must_clauses.append({"term": {"log_type": …}})`.
    A present `LogType` member is always truthy (non-empty value). -/
def logTypeClauses (q : LogQuery) : List Clause :=
  match q.log_type with
  | some t => [Clause.term "log_type" t.value]
  | none => []

/-- `if query.level: must_clauses.append({"term": {"level": …}})`. -/
def levelClauses (q : LogQuery) : List Clause :=
  match q.level with
  | some l => [Clause.term "level" l.value]
  | none => []

/-- `if query.source: must_clauses.append({"term": {"source": …}})`.
    Python truthiness: an empty source string is falsy and adds no clause. -/
def sourceClauses (q : LogQuery) : List Clause :=
  match q.source with
  | some s => if s = "" then [] else [Clause.term "source" s]
  | none => []

/-- `if query.start_time or query.end_time:` build `time_range` with the
    supplied `gte`/`lte` keys and append the range clause. A `datetime`
    is always truthy, so presence is exactly `isSome`. -/
def timeRangeClauses (q : LogQuery) : List Clause :=
  if q.start_time.isSome || q.end_time.isSome then
    [Clause.range "timestamp" (q.start_time.map DateTime.isoformat)
      (q.end_time.map DateTime.isoformat)]
  else []

/-- `if query.query_string: must_clauses.append({"query_string": …})`.
    An empty query string is falsy and adds no clause. -/
def queryStringClauses (q : LogQuery) : List Clause :=
  match q.query_string with
  | some s => if s = "" then [] else [Clause.queryString s "message"]
  | none => []

/-- The `must_clauses` list of `ElasticsearchService.search_logs`,
    appended in source order. -/
def mustClauses (q : LogQuery) : List Clause :=
  logTypeClauses q ++ levelClauses q ++ sourceClauses q ++
    timeRangeClauses q ++ queryStringClauses q

/-- The `search_body` of `ElasticsearchService.search_logs`: the bool
    query's `must` list, pagination, and the fixed sort. -/
structure SearchBody where
  must : List Clause
  size : Nat
  from_ : Nat
  sort_field : String
  sort_order : String
deriving DecidableEq, Repr

/-- `search_body = {"query": {"bool": {"must": must_clauses if
    must_clauses else [{"match_all": {}}]}}, "size": …, "from": …,
    "sort": [{"timestamp": {"order": "desc"}}]}`. -/
def searchBody (q : LogQuery) : SearchBody :=
  { must := if mustClauses q = [] then [Clause.matchAll] else mustClauses q
    size := q.size
    from_ := q.from_
    sort_field := "timestamp"
    sort_order := "desc" }

/-- A Python exception: its message (`str(e)`) and, when it was raised
    inside an `except` block, the exception being handled, which Python
    attaches automatically as `__context__` (implicit chaining). -/
inductive PyErr : Type where
  | mk (msg : String) (ctx : Option PyErr)

/-- `str(e)` of an exception. -/
def PyErr.msg : PyErr → String
  | .mk m _ => m

/-- The chained exception attached to this one, if any. -/
def PyErr.ctx : PyErr → Option PyErr
  | .mk _ c => c

/-- `services.elasticsearch_service.ElasticsearchService`: its only
    state the core logic reads is the configured index-name prefix
    (`settings.elasticsearch_index_prefix`, field `index_prefix` in the
    source). -/
structure ElasticsearchService where
  index_pre : String
deriving DecidableEq, Repr

/-- `ElasticsearchService._get_index_name`: the physical index name
    `{prefix}-{log_type.value}-{YYYY.MM.DD}` where the date is
    `datetime.now()` — the gateway's current day, passed explicitly
    here, and not anything taken from a record. -/
def ElasticsearchService.getIndexName (svc : ElasticsearchService)
    (log_type : LogType) (now : Date) : String :=
  svc.index_pre ++ "-" ++ log_type.value ++ "-" ++ now.strftimeDots

/-- The search-time index pattern `{prefix}-*` used by `search_logs`. -/
def ElasticsearchService.indexPattern (svc : ElasticsearchService) : String :=
  svc.index_pre ++ "-*"

/-- `ElasticsearchService.index_log`. The backend call
    `self.client.index(index=…, document=…)` is the explicit function
    `clientIndex`; a backend exception is wrapped as
    `Exception(f"Failed to index log: {str(e)}")`, raised inside the
    `except` block so the original exception stays chained. -/
def ElasticsearchService.index_log {α : Type} (svc : ElasticsearchService)
    (now : Date) (clientIndex : String → LogDoc → Except PyErr α)
    (log_entry : LogEntry) : Except PyErr α :=
  let index_name := svc.getIndexName log_entry.log_type now
  let doc := log_entry.dict
  match clientIndex index_name doc with
  | Except.ok response => Except.ok response
  | Except.error e =>
      Except.error (PyErr.mk ("Failed to index log: " ++ e.msg) (some e))

/-- One element of `response["hits"]["hits"]`; `search_logs` reads its
    `_source`. -/
structure SearchHit where
  _source : Doc
deriving DecidableEq, Repr

/-- The raw backend search response, as read by `search_logs`:
    `response["hits"]["total"]["value"]`, `response["hits"]["hits"]`,
    and `response["took"]`. -/
structure ESSearchResponse where
  hits_total_value : Nat
  hits_hits : List SearchHit
  took : Nat
deriving DecidableEq, Repr

/-- The normalized search result returned by `search_logs`
    (`models.log_model.LogResponse`). -/
structure LogResponse where
  total : Nat
  logs : List Doc
  took : Nat
deriving DecidableEq, Repr

/-- `ElasticsearchService.search_logs`. Builds `search_body` via
    `searchBody`, executes against the `{prefix}-*` pattern, and
    normalizes the raw response; each returned hit contributes its
    `_source` verbatim — there is no truncation step. A backend
    exception is wrapped as `Exception(f"Failed to search logs: …")`
    with the original chained. -/
def ElasticsearchService.search_logs (svc : ElasticsearchService)
    (clientSearch : String → SearchBody → Except PyErr ESSearchResponse)
    (query : LogQuery) : Except PyErr LogResponse :=
  let search_body := searchBody query
  let index_pattern := svc.indexPattern
  match clientSearch index_pattern search_body with
  | Except.ok response =>
      Except.ok
        { total := response.hits_total_value
          logs := response.hits_hits.map SearchHit._source
          took := response.took }
  | Except.error e =>
      Except.error (PyErr.mk ("Failed to search logs: " ++ e.msg) (some e))

/-- A JSON-ish value in the raw cluster-health payload; `null` is a
    present key bound to Python `None`, distinct from an absent key. -/
inductive JsonVal where
  | str (s : String)
  | num (n : Int)
  | null
deriving DecidableEq, Repr

/-- The raw cluster-health payload: a dict from keys to values. -/
abbrev HealthPayload := List (String × JsonVal)

/-- Python `dict.get(key, default)`: the bound value when the key is
    present (even if bound to `None`), the default only when absent. -/
def dictGet (d : HealthPayload) (key : String) (default : JsonVal) : JsonVal :=
  match d.find? (fun kv => kv.1 == key) with
  | some kv => kv.2
  | none => default

/-- `ElasticsearchService.get_cluster_health`: returns the raw payload
    unmodified; a backend exception is wrapped as
    `Exception(f"Failed to get cluster health: …")` with the original
    chained. -/
def get_cluster_health (clientHealth : Except PyErr HealthPayload) :
    Except PyErr HealthPayload :=
  match clientHealth with
  | Except.ok health => Except.ok health
  | Except.error e =>
      Except.error (PyErr.mk ("Failed to get cluster health: " ++ e.msg) (some e))

/-- `routers.health.HealthResponse`: the outward-facing summary. The
    three `es_*` fields are the nested `elasticsearch` dict built by the
    handler with `cluster_health.get(…, default)`. -/
structure HealthResponse where
  status : String
  es_status : JsonVal
  es_cluster_name : JsonVal
  es_number_of_nodes : JsonVal
deriving DecidableEq, Repr

/-- `fastapi.HTTPException(status_code=…, detail=…) from exc`. -/
inductive HTTPErr where
  | httpException (status_code : Nat) (detail : String) (cause : PyErr)

/-- `routers.health.health_check`. If `get_cluster_health` raises, the
    handler re-raises `HTTPException(503, "Elasticsearch connection
    failed") from exc` (the `except HTTPException: raise` pass-through
    is unreachable here because `get_cluster_health` wraps everything in
    a plain `Exception`). Otherwise it builds the summary with
    defensive `.get` defaults and `status="healthy"` regardless of the
    backend's own color. -/
def health_check (clientHealth : Except PyErr HealthPayload) :
    Except HTTPErr HealthResponse :=
  match get_cluster_health clientHealth with
  | Except.error exc =>
      Except.error (HTTPErr.httpException 503 "Elasticsearch connection failed" exc)
  | Except.ok cluster_health =>
      Except.ok
        { status := "healthy"
          es_status := dictGet cluster_health "status" (JsonVal.str "unknown")
          es_cluster_name := dictGet cluster_health "cluster_name" (JsonVal.str "unknown")
          es_number_of_nodes := dictGet cluster_health "number_of_nodes" (JsonVal.num 0) }

/-- `ElasticsearchService.initialize_indices` (renamed here because the
    Python name cannot be used verbatim): the `put_index_template`
    backend call is the explicit outcome `putTemplate`; on failure it
    prints a warning (collected in the returned list) and returns
    normally — the return type is total, not `Except`, because the
    function never raises. -/
def init_indices (putTemplate : Except PyErr Unit) : List String × Unit :=
  match putTemplate with
  | Except.ok _ => ([], ())
  | Except.error e =>
      (["Warning: Could not create index template: " ++ e.msg], ())

/-- `main.startup_event`: awaits `initialize_indices` and nothing else. -/
def startup_event (putTemplate : Except PyErr Unit) : List String × Unit :=
  init_indices putTemplate

/-- Whether a clause is a `range` clause. -/
def Clause.isRange : Clause → Bool
  | .range _ _ _ => true
  | _ => false

theorem logTypeClauses_no_range (q : LogQuery) :
    (logTypeClauses q).filter Clause.isRange = [] := by
  unfold logTypeClauses
  cases q.log_type <;> simp [Clause.isRange]

theorem levelClauses_no_range (q : LogQuery) :
    (levelClauses q).filter Clause.isRange = [] := by
  unfold levelClauses
  cases q.level <;> simp [Clause.isRange]

theorem sourceClauses_no_range (q : LogQuery) :
    (sourceClauses q).filter Clause.isRange = [] := by
  unfold sourceClauses
  cases q.source with
  | none => simp
  | some s => by_cases h : s = "" <;> simp [h, Clause.isRange]

theorem queryStringClauses_no_range (q : LogQuery) :
    (queryStringClauses q).filter Clause.isRange = [] := by
  unfold queryStringClauses
  cases q.query_string with
  | none => simp
  | some s => by_cases h : s = "" <;> simp [h, Clause.isRange]

theorem mustClauses_filter_isRange (q : LogQuery) :
    (mustClauses q).filter Clause.isRange = timeRangeClauses q := by
  simp only [mustClauses, List.filter_append, logTypeClauses_no_range,
    levelClauses_no_range, sourceClauses_no_range, queryStringClauses_no_range,
    List.nil_append, List.append_nil]
  unfold timeRangeClauses
  split <;> simp [Clause.isRange]

theorem searchBody_filter_isRange (q : LogQuery) :
    ((searchBody q).must.filter Clause.isRange) = timeRangeClauses q := by
  unfold searchBody
  by_cases h : mustClauses q = []
  · have ht : timeRangeClauses q = [] := by
      have h2 := h
      simp only [mustClauses, List.append_eq_nil] at h2
      tauto
    simp [h, ht, Clause.isRange]
  · simpa [h] using mustClauses_filter_isRange q

/-- Claim C1: `index_log` resolves the physical index name as
    `{prefix}-{category}-{YYYY.MM.DD}` from the gateway's current day
    (the `now` passed to the call), never from the record's own
    `timestamp` field: the name handed to the backend depends only on
    the prefix, the record's `log_type`, and `now`, and is unchanged
    under any rewrite of the record's timestamp. Concretely, prefix
    `logs` and category `application` on 2024-01-15 give
    `logs-application-2024.01.15`. -/
theorem C1_index_name (svc : ElasticsearchService) (now : Date) (e : LogEntry) :
    (ElasticsearchService.index_log svc now (fun name doc => Except.ok (name, doc)) e
       = Except.ok (svc.index_pre ++ "-" ++ e.log_type.value ++ "-" ++ now.strftimeDots,
           e.dict))
  ∧ (∀ t1 t2 : DateTime,
       ElasticsearchService.index_log svc now (fun name _ => Except.ok name)
           { e with timestamp := t1 }
         = ElasticsearchService.index_log svc now (fun name _ => Except.ok name)
             { e with timestamp := t2 })
  ∧ ElasticsearchService.getIndexName ⟨"logs"⟩ LogType.APPLICATION ⟨2024, 1, 15⟩
      = "logs-application-2024.01.15" :=
  ⟨rfl, fun _ _ => rfl, by decide⟩

/-- Claim C2: when category, level, source, start_time, end_time and
    query_string are all absent, the built boolean query's `must` list
    is exactly the single `match_all` clause, for every size and
    offset. -/
theorem C2_match_all (size off : Nat) :
    (searchBody
      { log_type := none, level := none, source := none, start_time := none,
        end_time := none, query_string := none, size := size, from_ := off }).must
      = [Clause.matchAll] := by
  simp [searchBody, mustClauses, logTypeClauses, levelClauses, sourceClauses,
    timeRangeClauses, queryStringClauses]

/-- Claim C3: the range clauses of the built query, for any query `q`:
    with only `start_time = T` there is exactly one, with inclusive
    lower bound `T` and no upper bound; with only `end_time = T`, only
    the inclusive upper bound; with both, both bounds; with neither, no
    range clause at all. -/
theorem C3_time_range (q : LogQuery) (T T1 T2 : DateTime) :
    ((searchBody { q with start_time := some T, end_time := none }).must.filter
        Clause.isRange
      = [Clause.range "timestamp" (some T.isoformat) none])
  ∧ ((searchBody { q with start_time := none, end_time := some T }).must.filter
        Clause.isRange
      = [Clause.range "timestamp" none (some T.isoformat)])
  ∧ ((searchBody { q with start_time := some T1, end_time := some T2 }).must.filter
        Clause.isRange
      = [Clause.range "timestamp" (some T1.isoformat) (some T2.isoformat)])
  ∧ ((searchBody { q with start_time := none, end_time := none }).must.filter
        Clause.isRange
      = []) := by
  refine ⟨?_, ?_, ?_, ?_⟩ <;>
    rw [searchBody_filter_isRange] <;> simp [timeRangeClauses]

/-- Claim C4: with both `log_type = X` and `level = Y` present, the
    built boolean query's single `must` list (whose clauses the backend
    combines conjunctively) contains the exact-match term clause for
    `X` on the `log_type` field and the exact-match term clause for `Y`
    on the `level` field. -/
theorem C4_category_level_and (q : LogQuery) (X : LogType) (Y : LogLevel) :
    Clause.term "log_type" X.value
        ∈ (searchBody { q with log_type := some X, level := some Y }).must
  ∧ Clause.term "level" Y.value
        ∈ (searchBody { q with log_type := some X, level := some Y }).must := by
  have hne : mustClauses { q with log_type := some X, level := some Y } ≠ [] := by
    simp [mustClauses, logTypeClauses]
  constructor <;>
    simp [searchBody, hne, mustClauses, logTypeClauses, levelClauses]

/-- Claim C5: a backend failure `err` inside `index_log` or
    `search_logs` is re-raised as a wrapped failure whose message names
    the failed operation and embeds `str(err)`, with the original
    exception chained (`some err`); the call returns that error, so the
    caller receives no acknowledgment and no search result. -/
theorem C5_error_wrapping (svc : ElasticsearchService) (now : Date)
    (e : LogEntry) (q : LogQuery) (err : PyErr) :
    (ElasticsearchService.index_log svc now
        (fun _ _ => (Except.error err : Except PyErr Unit)) e
      = Except.error (PyErr.mk ("Failed to index log: " ++ err.msg) (some err)))
  ∧ (ElasticsearchService.search_logs svc (fun _ _ => Except.error err) q
      = Except.error (PyErr.mk ("Failed to search logs: " ++ err.msg) (some err))) :=
  ⟨rfl, rfl⟩

/-- Claim C6: building the health summary from a successfully returned
    payload never fails, and each missing key is defaulted: absent
    `status` gives `"unknown"`, absent `cluster_name` gives
    `"unknown"`, absent `number_of_nodes` gives `0`; the empty payload
    gives all three defaults, and a payload with exactly the three keys
    `green`/`c1`/`3` passes them through unchanged. -/
theorem C6_health_defaults (p : HealthPayload) :
    (∃ r : HealthResponse, health_check (Except.ok p) = Except.ok r)
  ∧ (p.find? (fun kv => kv.1 == "status") = none →
       health_check (Except.ok p) = Except.ok
         { status := "healthy"
           es_status := JsonVal.str "unknown"
           es_cluster_name := dictGet p "cluster_name" (JsonVal.str "unknown")
           es_number_of_nodes := dictGet p "number_of_nodes" (JsonVal.num 0) })
  ∧ (p.find? (fun kv => kv.1 == "cluster_name") = none →
       health_check (Except.ok p) = Except.ok
         { status := "healthy"
           es_status := dictGet p "status" (JsonVal.str "unknown")
           es_cluster_name := JsonVal.str "unknown"
           es_number_of_nodes := dictGet p "number_of_nodes" (JsonVal.num 0) })
  ∧ (p.find? (fun kv => kv.1 == "number_of_nodes") = none →
       health_check (Except.ok p) = Except.ok
         { status := "healthy"
           es_status := dictGet p "status" (JsonVal.str "unknown")
           es_cluster_name := dictGet p "cluster_name" (JsonVal.str "unknown")
           es_number_of_nodes := JsonVal.num 0 })
  ∧ (health_check (Except.ok ([] : HealthPayload)) = Except.ok
       { status := "healthy", es_status := JsonVal.str "unknown"
         es_cluster_name := JsonVal.str "unknown"
         es_number_of_nodes := JsonVal.num 0 })
  ∧ (health_check (Except.ok
        [("status", JsonVal.str "green"), ("cluster_name", JsonVal.str "c1"),
         ("number_of_nodes", JsonVal.num 3)]) = Except.ok
       { status := "healthy", es_status := JsonVal.str "green"
         es_cluster_name := JsonVal.str "c1"
         es_number_of_nodes := JsonVal.num 3 }) := by
  refine ⟨⟨_, rfl⟩, ?_, ?_, ?_, rfl, rfl⟩ <;>
    intro h <;> simp [health_check, get_cluster_health, dictGet, h]

/-- Witness for C6 at the empty payload: all three defaulting
    hypotheses hold there and give the all-default summary. -/
theorem C6_health_defaults_witness :
    (health_check (Except.ok ([] : HealthPayload)) = Except.ok
       { status := "healthy", es_status := JsonVal.str "unknown"
         es_cluster_name := dictGet [] "cluster_name" (JsonVal.str "unknown")
         es_number_of_nodes := dictGet [] "number_of_nodes" (JsonVal.num 0) })
  ∧ (health_check (Except.ok ([] : HealthPayload)) = Except.ok
       { status := "healthy", es_status := dictGet [] "status" (JsonVal.str "unknown")
         es_cluster_name := JsonVal.str "unknown"
         es_number_of_nodes := dictGet [] "number_of_nodes" (JsonVal.num 0) })
  ∧ (health_check (Except.ok ([] : HealthPayload)) = Except.ok
       { status := "healthy", es_status := dictGet [] "status" (JsonVal.str "unknown")
         es_cluster_name := dictGet [] "cluster_name" (JsonVal.str "unknown")
         es_number_of_nodes := JsonVal.num 0 }) :=
  ⟨(C6_health_defaults []).2.1 rfl, (C6_health_defaults []).2.2.1 rfl,
    (C6_health_defaults []).2.2.2.1 rfl⟩

/-- Claim C7: whenever the backend health call returns at all, the
    outward summary's own `status` is the healthy marker `"healthy"`,
    whatever color the backend reported — the backend's color is only
    nested separately (shown for `"red"`); and when the backend call
    raises, `health_check` propagates a distinguishable
    service-unavailable error (HTTP 503) carrying the wrapped cause,
    instead of a defaulted summary. -/
theorem C7_health_status (p : HealthPayload) (err : PyErr) :
    (∃ r : HealthResponse,
        health_check (Except.ok p) = Except.ok r ∧ r.status = "healthy")
  ∧ (health_check (Except.ok (("status", JsonVal.str "red") :: p)) = Except.ok
       { status := "healthy", es_status := JsonVal.str "red"
         es_cluster_name := dictGet p "cluster_name" (JsonVal.str "unknown")
         es_number_of_nodes := dictGet p "number_of_nodes" (JsonVal.num 0) })
  ∧ (health_check (Except.error err)
      = Except.error (HTTPErr.httpException 503 "Elasticsearch connection failed"
          (PyErr.mk ("Failed to get cluster health: " ++ err.msg) (some err)))) :=
  ⟨⟨_, rfl, rfl⟩, rfl, rfl⟩

/-- Claim C8: a failure of the index-template creation step is turned
    into a logged warning and `initialize_indices` (here
    `init_indices`) returns normally — its result type is a plain pair,
    produced on the failure branch too — so `startup_event` completes
    for every outcome of the template call. -/
theorem C8_template_soft_fail (err : PyErr) :
    (init_indices (Except.error err)
      = (["Warning: Could not create index template: " ++ err.msg], ()))
  ∧ (startup_event (Except.error err)
      = (["Warning: Could not create index template: " ++ err.msg], ()))
  ∧ init_indices (Except.ok ()) = ([], ())
  ∧ startup_event (Except.ok ()) = ([], ()) :=
  ⟨rfl, rfl, rfl, rfl⟩

/-- A page-size-1 query with no filters (within the model's bounds
    `1 ≤ size ≤ 1000`, `0 ≤ from`). -/
def q9 : LogQuery :=
  { log_type := none, level := none, source := none, start_time := none,
    end_time := none, query_string := none, size := 1, from_ := 0 }

/-- A backend response carrying two hits. -/
def resp9 : ESSearchResponse :=
  { hits_total_value := 2, hits_hits := [⟨[]⟩, ⟨[]⟩], took := 5 }

/-- Counterexample to claim C9 as stated: `search_logs` does not
    truncate, so for the in-bounds query of size 1 and a backend
    response carrying two hits, the returned documents list has length
    2 > 1 = size. -/
theorem C9_counterexample :
    1 ≤ q9.size ∧ q9.size ≤ 1000 ∧ 0 ≤ q9.from_
  ∧ (ElasticsearchService.search_logs ⟨"logs"⟩ (fun _ _ => Except.ok resp9) q9
      = Except.ok { total := 2, logs := [[], []], took := 5 })
  ∧ ¬ (({ total := 2, logs := [[], []], took := 5 } : LogResponse).logs.length
        ≤ q9.size) :=
  ⟨by decide, by decide, by decide, rfl, by decide⟩

/-- Claim C9 amended: `search_logs` returns the backend hits' sources
    verbatim (it forwards the requested size in the search body but
    does not itself truncate the response), so the documents list's
    length is bounded by the requested size exactly when the backend
    returns at most `size` hits. -/
theorem C9_size_bound (svc : ElasticsearchService) (q : LogQuery)
    (r : ESSearchResponse) (h : r.hits_hits.length ≤ q.size) :
    ∃ out : LogResponse,
      ElasticsearchService.search_logs svc (fun _ _ => Except.ok r) q
          = Except.ok out
      ∧ out.logs.length ≤ q.size
      ∧ (searchBody q).size = q.size := by
  refine ⟨_, rfl, ?_, rfl⟩
  simpa using h

/-- Witness for C9's amended theorem: a size-100 query against the
    two-hit response satisfies the hypothesis and the bound. -/
theorem C9_size_bound_witness :
    ∃ out : LogResponse,
      ElasticsearchService.search_logs ⟨"logs"⟩ (fun _ _ => Except.ok resp9)
          { q9 with size := 100 }
        = Except.ok out
      ∧ out.logs.length ≤ ({ q9 with size := 100 } : LogQuery).size
      ∧ (searchBody { q9 with size := 100 }).size
          = ({ q9 with size := 100 } : LogQuery).size :=
  C9_size_bound ⟨"logs"⟩ { q9 with size := 100 } resp9 (by decide)

/-- Claim C10: defaulting in the health summary is keyed on key
    absence, not on null values — for every payload in which the key
    `status` (resp. `cluster_name`, `number_of_nodes`) is present but
    its binding (the one `dict.get` reads) is null, the summary passes
    that null through unchanged in the corresponding field instead of
    substituting the default. -/
theorem C10_null_passthrough (p : HealthPayload) (kvs kvc kvn : String × JsonVal) :
    (p.find? (fun kv => kv.1 == "status") = some kvs → kvs.2 = JsonVal.null →
       ∃ r : HealthResponse,
         health_check (Except.ok p) = Except.ok r ∧ r.es_status = JsonVal.null)
  ∧ (p.find? (fun kv => kv.1 == "cluster_name") = some kvc → kvc.2 = JsonVal.null →
       ∃ r : HealthResponse,
         health_check (Except.ok p) = Except.ok r ∧ r.es_cluster_name = JsonVal.null)
  ∧ (p.find? (fun kv => kv.1 == "number_of_nodes") = some kvn →
       kvn.2 = JsonVal.null →
       ∃ r : HealthResponse,
         health_check (Except.ok p) = Except.ok r
           ∧ r.es_number_of_nodes = JsonVal.null) := by
  refine ⟨?_, ?_, ?_⟩ <;> intro h1 h2 <;>
    exact ⟨_, rfl, by simp [dictGet, h1, h2]⟩

/-- Witness for C10 at concrete payloads where each key in turn is
    present but bound to null (for `status`, behind another entry). -/
theorem C10_null_passthrough_witness :
    (∃ r : HealthResponse,
        health_check (Except.ok
            [("cluster_name", JsonVal.str "c1"), ("status", JsonVal.null)])
          = Except.ok r ∧ r.es_status = JsonVal.null)
  ∧ (∃ r : HealthResponse,
        health_check (Except.ok
            [("status", JsonVal.str "green"), ("cluster_name", JsonVal.null)])
          = Except.ok r ∧ r.es_cluster_name = JsonVal.null)
  ∧ (∃ r : HealthResponse,
        health_check (Except.ok [("number_of_nodes", JsonVal.null)])
          = Except.ok r ∧ r.es_number_of_nodes = JsonVal.null) :=
  ⟨(C10_null_passthrough
      [("cluster_name", JsonVal.str "c1"), ("status", JsonVal.null)]
      ("status", JsonVal.null) ("status", JsonVal.null)
      ("status", JsonVal.null)).1 rfl rfl,
   (C10_null_passthrough
      [("status", JsonVal.str "green"), ("cluster_name", JsonVal.null)]
      ("cluster_name", JsonVal.null) ("cluster_name", JsonVal.null)
      ("cluster_name", JsonVal.null)).2.1 rfl rfl,
   (C10_null_passthrough [("number_of_nodes", JsonVal.null)]
      ("number_of_nodes", JsonVal.null) ("number_of_nodes", JsonVal.null)
      ("number_of_nodes", JsonVal.null)).2.2 rfl rfl⟩
